import Mathlib

/-!
Shallow embedding of `src/main.py` (gb-send): a FastAPI bridge that relays
uploads and messages into a Discord channel and reads back recent history.

The Discord client library is an external collaborator: its objects (client,
guilds, channels, messages) are modelled as plain data, and the outcomes of
its fallible calls (`client.start`, `channel.history`, `channel.send`) are
inputs to the embedded handlers.  Python truthiness of `str | None` values
and the `try/except Exception/finally` control flow of the handlers are
embedded explicitly.
-/

namespace GbSend

/-- One attachment of a Discord message; the handler reads `att.url` and
`att.filename` (main.py line 114). -/
structure Attachment where
  url : String
  filename : String
deriving DecidableEq

/-- A Discord message as provided by the platform.  `createdAt` holds the
ISO rendering of `msg.created_at` (the handler calls `.isoformat()`). -/
structure DiscordMessage where
  authorName : String
  content : String
  createdAt : String
  attachments : List Attachment
deriving DecidableEq

/-- A text channel in the client cache.  `canSend` is the precomputed value
of `channel.permissions_for(guild.me).send_messages`; `history` is the
channel history in the platform order (most recent first) that
`channel.history` would yield; `historyExc`/`sendExc` are the exception
messages raised by `channel.history` iteration / `channel.send`, when any. -/
structure Channel where
  id : Int
  name : String
  canSend : Bool
  history : List DiscordMessage
  historyExc : Option String
  sendExc : Option String
deriving DecidableEq

/-- A guild with its text channels (main.py lines 89-92). -/
structure Guild where
  name : String
  textChannels : List Channel
deriving DecidableEq

/-- The Discord client: readiness flag (`client.is_ready()`) and the guild /
channel cache. -/
structure Client where
  ready : Bool
  guilds : List Guild
deriving DecidableEq

/-- `client.get_channel(cid)`: resolve a channel id via the client cache;
`None` when the id does not resolve. -/
def get_channel (client : Client) (cid : Int) : Option Channel :=
  (client.guilds.flatMap (fun g => g.textChannels)).find? (fun c => c.id == cid)

/-- Python truthiness of a `str | None` value: falsy iff `None` or `""`
(used by `not message` on line 127 and `not DISCORD_BOT_TOKEN` on line 40). -/
def pyFalsy (m : Option String) : Bool :=
  match m with
  | none => true
  | some s => s == ""

/-- Strip leading and trailing whitespace from a character list, as Python
`int` does to its string argument before parsing. -/
def pyStrip (cs : List Char) : List Char :=
  ((cs.dropWhile Char.isWhitespace).reverse.dropWhile Char.isWhitespace).reverse

/-- Read a nonempty all-decimal-digit character list as a natural number;
`none` otherwise. -/
def decDigits? (cs : List Char) : Option Nat :=
  if cs ≠ [] ∧ cs.all Char.isDigit then
    some (cs.foldl (fun n c => 10 * n + (c.toNat - 48)) 0)
  else none

/-- Python `int(s)` on a string: strip whitespace, optional single sign,
then decimal digits; `none` models the `ValueError` raise (main.py lines
103 and 138). -/
def pyIntParse (s : String) : Option Int :=
  match pyStrip s.data with
  | [] => none
  | c :: cs =>
    if c = '-' then (decDigits? cs).map (fun n => -(n : Int))
    else if c = '+' then (decDigits? cs).map (fun n => (n : Int))
    else (decDigits? (c :: cs)).map (fun n => (n : Int))

/-- Message of the `ValueError` raised by `int(s)` (quotes of the Python
repr around the offending string omitted). -/
def valueErrorMsg (s : String) : String :=
  "invalid literal for int() with base 10: " ++ s

/-- A Python exception as observed by the handlers' `except Exception as e`
blocks: an `HTTPException` raised inside the `try`, a `ValueError` from
`int`, or any other exception from the Discord library. -/
inductive PyExc where
  | http (status : Nat) (detail : String)
  | valueError (msg : String)
  | other (msg : String)
deriving DecidableEq

/-- `str(e)`: Starlette's `HTTPException.__str__` renders
`"{status_code}: {detail}"`; other exceptions render their message. -/
def PyExc.str : PyExc → String
  | .http s d => toString s ++ ": " ++ d
  | .valueError m => m
  | .other m => m

/-- An HTTP handler outcome: a 200 body or an `HTTPException` that escapes
the handler, with its status code and detail. -/
inductive Response (α : Type) where
  | ok (body : α)
  | httpError (status : Nat) (detail : String)
deriving DecidableEq

/-- One entry of the `GET /channels` listing (main.py line 92). -/
structure ChannelEntry where
  id : String
  name : String
deriving DecidableEq

/-- `GET /channels` (main.py lines 83-94): 503 when the client is not
ready, otherwise the postable channels, filtered by the send permission. -/
def get_channels (client : Client) : Response (List ChannelEntry) :=
  if !client.ready then .httpError 503 "Discord bot is not ready."
  else .ok (client.guilds.flatMap (fun g =>
    (g.textChannels.filter (fun c => c.canSend)).map
      (fun c => { id := toString c.id, name := "#" ++ c.name ++ " (" ++ g.name ++ ")" })))

/-- One item returned by `GET /messages/{channel_id}` (lines 109-115). -/
structure RenderedMessage where
  author : String
  content : String
  timestamp : String
  attachments : List Attachment
deriving DecidableEq

/-- The dict built for one message (main.py lines 109-115). -/
def renderMessage (m : DiscordMessage) : RenderedMessage :=
  { author := m.authorName, content := m.content, timestamp := m.createdAt,
    attachments := m.attachments.map (fun a => { url := a.url, filename := a.filename }) }

/-- Body of the `try` block of `get_messages` (lines 102-116): parse the id
(`ValueError` on failure), resolve the channel (`HTTPException 404` raise on
`None`), iterate `channel.history(limit=50)` and render each message. -/
def getMessagesTry (client : Client) (channel_id : String) :
    Except PyExc (List RenderedMessage) :=
  match pyIntParse channel_id with
  | none => .error (.valueError (valueErrorMsg channel_id))
  | some cid =>
    match get_channel client cid with
    | none => .error (.http 404 "Discord channel not found.")
    | some ch =>
      match ch.historyExc with
      | some m => .error (.other m)
      | none => .ok ((ch.history.take 50).map renderMessage)

/-- `GET /messages/{channel_id}` (main.py lines 96-120).  Note that the
`except Exception` clause on line 118 also catches the `HTTPException(404)`
raised on line 105, because `HTTPException` subclasses `Exception`: every
exception of the `try` block is re-raised as a 500 whose detail embeds
`str(e)`. -/
def get_messages (client : Client) (channel_id : String) :
    Response (List RenderedMessage) :=
  if !client.ready then .httpError 503 "Discord bot is not ready."
  else
    match getMessagesTry client channel_id with
    | .ok msgs => .ok msgs
    | .error e => .httpError 500 ("メッセージの取得に失敗しました: " ++ e.str)

/-! ## Upload handler (`POST /upload/`, main.py lines 123-160) -/

/-- The uploaded file part of the multipart form: its client-supplied
filename and its bytes (`await file.read()`). -/
structure UploadedFile where
  filename : String
  data : String
deriving DecidableEq

/-- The disk as a list of (path, contents) pairs. -/
abbrev FS := List (String × String)

/-- `open(path, "wb")` followed by a full write: create or truncate. -/
def fsWrite (fs : FS) (path data : String) : FS :=
  (path, data) :: fs.filter (fun q => !(q.1 == path))

/-- `os.path.exists path`. -/
def fsExists (fs : FS) (path : String) : Bool :=
  fs.any (fun q => q.1 == path)

/-- `os.remove path`. -/
def fsRemove (fs : FS) (path : String) : FS :=
  fs.filter (fun q => !(q.1 == path))

/-- The temporary path chosen on line 144: `f"/tmp/{file.filename}"`. -/
def tempPath (filename : String) : String :=
  "/tmp/" ++ filename

/-- What the handler forwarded to the resolved channel via `channel.send`. -/
inductive SendAction where
  | textOnly (content : String)
  | withFile (content : String) (path : String)
deriving DecidableEq

/-- State at the end of the `try` block of `upload_file` (lines 136-157),
before the `except` wrapping and the `finally` cleanup run: the outcome,
the disk, the value of the `file_path` local, and the delivered send. -/
structure TryResult where
  resp : Except PyExc String
  fs : FS
  filePath : Option String
  sent : Option SendAction

/-- Body of the `try` block of `upload_file` (lines 136-152): parse the id,
resolve the channel (404 raise on `None`), then either write the file to
`/tmp/{filename}` and send it with the content, or send the content alone.
The branch on line 143 (`if file and file.filename`) takes the file path
only when a file object is present and its filename is a nonempty string
(an `UploadFile` object is always truthy). -/
def uploadTry (client : Client) (channel_id : String) (content : String)
    (file : Option UploadedFile) (fs0 : FS) : TryResult :=
  match pyIntParse channel_id with
  | none =>
    { resp := .error (.valueError (valueErrorMsg channel_id)), fs := fs0,
      filePath := none, sent := none }
  | some cid =>
    match get_channel client cid with
    | none =>
      { resp := .error (.http 404 "Discord channel not found."), fs := fs0,
        filePath := none, sent := none }
    | some ch =>
      match file with
      | some f =>
        if f.filename ≠ "" then
          let path := tempPath f.filename
          let fs1 := fsWrite fs0 path f.data
          match ch.sendExc with
          | some m =>
            { resp := .error (.other m), fs := fs1, filePath := some path, sent := none }
          | none =>
            { resp := .ok "投稿が完了しました！", fs := fs1, filePath := some path,
              sent := some (.withFile content path) }
        else
          match ch.sendExc with
          | some m => { resp := .error (.other m), fs := fs0, filePath := none, sent := none }
          | none =>
            { resp := .ok "投稿が完了しました！", fs := fs0, filePath := none,
              sent := some (.textOnly content) }
      | none =>
        match ch.sendExc with
        | some m => { resp := .error (.other m), fs := fs0, filePath := none, sent := none }
        | none =>
          { resp := .ok "投稿が完了しました！", fs := fs0, filePath := none,
            sent := some (.textOnly content) }

/-- The `finally` block (lines 158-160): `if file_path and
os.path.exists(file_path): os.remove(file_path)`.  When set, `file_path`
always holds a nonempty string (it starts with `/tmp/`), so its truthiness
test reduces to the `Option` match. -/
def finallyCleanup (fs : FS) (filePath : Option String) : FS :=
  match filePath with
  | some p => if fsExists fs p then fsRemove fs p else fs
  | none => fs

/-- Full observable outcome of one `POST /upload/` request. -/
structure UploadResult where
  response : Response String
  fs : FS
  created : Option String
  sent : Option SendAction
deriving DecidableEq

/-- `POST /upload/` (main.py lines 123-160), in source order: the 400
validation when both `message` and `file` are falsy (line 127), the 503
readiness check (line 130), `content = message if message is not None else
""` (line 133), then the `try` body, with every exception of the `try`
block — the 404 raise included — re-raised as a 500 embedding `str(e)`
(lines 155-157), and the `finally` cleanup (lines 158-160). -/
def upload_file (client : Client) (channel_id : String) (message : Option String)
    (file : Option UploadedFile) (fs0 : FS) : UploadResult :=
  if pyFalsy message && file.isNone then
    { response := .httpError 400 "メッセージまたはファイルを送信してください。",
      fs := fs0, created := none, sent := none }
  else if !client.ready then
    { response := .httpError 503 "Discord bot is not ready.",
      fs := fs0, created := none, sent := none }
  else
    let content := message.getD ""
    let tr := uploadTry client channel_id content file fs0
    { response :=
        match tr.resp with
        | .ok b => .ok b
        | .error e => .httpError 500 ("投稿に失敗しました: " ++ e.str),
      fs := finallyCleanup tr.fs tr.filePath,
      created := tr.filePath,
      sent := tr.sent }

/-! ## Startup (main.py lines 39-49 and 64-71) -/

/-- Result of importing the module: either the process exited at the token
check (lines 40-42), or execution reached the construction of the Discord
client (line 48) and the FastAPI app (line 49) with the given token — the
point after which the HTTP server and the chat client can be started. -/
inductive ModuleInit where
  | exited (code : Nat)
  | botAndAppCreated (token : String)
deriving DecidableEq

/-- Lines 39-49: `DISCORD_BOT_TOKEN = os.getenv(...)`; `if not
DISCORD_BOT_TOKEN: sys.exit(1)`.  An unset variable is `None` and an empty
string is falsy; both exit with code 1 before the client or app exist. -/
def moduleStartup (envToken : Option String) : ModuleInit :=
  match envToken with
  | none => .exited 1
  | some t => if t == "" then .exited 1 else .botAndAppCreated t

/-- Outcome of the `client.start(token)` coroutine that the startup handler
schedules: it blocks on success, raises `LoginFailure` on bad credentials,
or raises some other exception on a transport failure. -/
inductive ConnectOutcome where
  | success
  | loginFailure (msg : String)
  | otherFailure (msg : String)
deriving DecidableEq

/-- Observable behaviour of the startup handler and the connection task it
spawns: how many login-plus-connect attempts are made, which sleeps are
taken between attempts, whether the process exits during startup, and
whether the background task was created. -/
structure StartupTrace where
  connectAttempts : Nat
  sleepsSec : List Nat
  exitCode : Option Nat
  taskCreated : Bool
deriving DecidableEq

/-- The `startup` event handler (main.py lines 64-71):
`asyncio.create_task(client.start(DISCORD_BOT_TOKEN))` inside
`try/except`.  `create_task` returns immediately after scheduling the
coroutine; the `except` clause (which would `sys.exit(1)`) only fires if
task creation itself raises (`createTaskRaises`), which `client.start` run
inside the task never does.  The scheduled task runs `client.start` exactly
once; whatever its outcome — success, `LoginFailure`, or any other
exception — the handler never observes it: there is no retry loop, no
sleep, and no process exit on a connection failure. -/
def start_discord_bot (createTaskRaises : Option String) (outcome : ConnectOutcome) :
    StartupTrace :=
  match createTaskRaises with
  | some _ =>
    { connectAttempts := 0, sleepsSec := [], exitCode := some 1, taskCreated := false }
  | none =>
    match outcome with
    | _ =>
      { connectAttempts := 1, sleepsSec := [], exitCode := none, taskCreated := true }

/-! ## Concrete fixtures for witnesses and counterexamples -/

/-- Two messages in platform order (most recent first). -/
def sampleMessages : List DiscordMessage :=
  [{ authorName := "alice", content := "hello", createdAt := "2024-01-02T03:04:05",
     attachments := [{ url := "https://cdn.example/a.png", filename := "a.png" }] },
   { authorName := "bob", content := "", createdAt := "2024-01-01T00:00:00",
     attachments := [] }]

/-- A postable channel with id 42 whose history fetch and send succeed. -/
def sampleChannel : Channel :=
  { id := 42, name := "general", canSend := true, history := sampleMessages,
    historyExc := none, sendExc := none }

/-- A ready client whose cache resolves channel 42. -/
def sampleClient : Client :=
  { ready := true, guilds := [{ name := "guild", textChannels := [sampleChannel] }] }

/-- A ready client with an empty cache: no channel id resolves. -/
def readyEmptyClient : Client :=
  { ready := true, guilds := [] }

/-- A client that is not yet ready. -/
def notReadyClient : Client :=
  { ready := false, guilds := [] }

/-! ## Helper lemmas -/

/-- After `os.remove p`, `os.path.exists p` is false. -/
theorem fsExists_fsRemove (fs : FS) (p : String) :
    fsExists (fsRemove fs p) p = false := by
  induction fs with
  | nil => rfl
  | cons q t ih =>
    by_cases h : (q.1 == p) = true <;>
      simp [fsRemove, fsExists, List.filter_cons, h] at ih ⊢

/-- After the `finally` block runs with `file_path` set to `p`, the path
`p` is absent from the disk. -/
theorem fsExists_finallyCleanup (fs : FS) (p : String) :
    fsExists (finallyCleanup fs (some p)) p = false := by
  unfold finallyCleanup
  by_cases h : fsExists fs p = true
  · simp [h, fsExists_fsRemove]
  · simp only [Bool.not_eq_true] at h
    simp [h]

/-- The temporary path determines and is determined by the filename. -/
theorem tempPath_inj (a b : String) : tempPath a = tempPath b ↔ a = b := by
  constructor
  · intro h
    have h2 := congrArg String.data h
    simp only [tempPath, String.data_append] at h2
    have h3 : a.data = b.data := List.append_cancel_left h2
    cases a
    cases b
    exact congrArg String.mk h3
  · intro h
    rw [h]

/-- If the `try` block of the upload handler set `file_path`, a file object
was present and the path is `/tmp/` plus its filename. -/
theorem uploadTry_filePath_eq (client : Client) (channel_id : String) (content : String)
    (file : Option UploadedFile) (fs0 : FS) (p : String)
    (h : (uploadTry client channel_id content file fs0).filePath = some p) :
    ∃ f, file = some f ∧ p = tempPath f.filename := by
  unfold uploadTry at h
  split at h
  · simp at h
  · split at h
    · simp at h
    · split at h
      · split at h
        · split at h <;> simp_all
        · split at h <;> simp at h
      · split at h <;> simp at h

/-! ## Claims -/

/-- C1: for a ready client whose cache does not resolve the channel id, the
handlers do not respond 404: the explicit `HTTPException(404)` raise is
caught by the enclosing `except Exception` clause and re-raised as a 500
whose detail embeds the rendering of the 404 — on GET /messages/123 and on
POST /upload/ alike. -/
theorem unresolved_channel_wrapped_to_500 :
    get_messages readyEmptyClient "123" =
      .httpError 500 "メッセージの取得に失敗しました: 404: Discord channel not found." ∧
    (upload_file readyEmptyClient "123" (some "hi") none []).response =
      .httpError 500 "投稿に失敗しました: 404: Discord channel not found." :=
  ⟨by decide, by decide⟩

/-- C2 counterexample: on a non-authentication connection failure the
startup logic makes exactly one connection attempt and sleeps zero times —
there is no 5-second delay and no further attempt — and an authentication
failure does not make the process exit. -/
theorem startup_no_retry_cex :
    (start_discord_bot none (.otherFailure "gateway closed")).connectAttempts = 1 ∧
    (start_discord_bot none (.otherFailure "gateway closed")).sleepsSec = [] ∧
    (start_discord_bot none (.loginFailure "Improper token has been passed.")).exitCode =
      none :=
  ⟨rfl, rfl, rfl⟩

/-- C2 amended: the startup handler launches the connection as a single
fire-and-forget task: when task creation succeeds, exactly one
login-plus-connect attempt is made, with no sleeps, no retries and no
process exit, whatever the outcome of the attempt; the except branch exits
with code 1 only in the case that task creation itself raises. -/
theorem startup_single_attempt (o : ConnectOutcome) (m : String) :
    start_discord_bot none o =
      { connectAttempts := 1, sleepsSec := [], exitCode := none, taskCreated := true } ∧
    start_discord_bot (some m) o =
      { connectAttempts := 0, sleepsSec := [], exitCode := some 1, taskCreated := false } :=
  ⟨rfl, rfl⟩

/-- C3 counterexample: two distinct upload requests — different message
text and different file bytes — that carry the same filename both write
their temporary file to the same path `/tmp/a.txt`. -/
theorem temp_path_collision_cex :
    (upload_file sampleClient "42" (some "first")
      (some { filename := "a.txt", data := "A" }) []).created = some "/tmp/a.txt" ∧
    (upload_file sampleClient "42" (some "second")
      (some { filename := "a.txt", data := "B" }) []).created = some "/tmp/a.txt" ∧
    ("first", "A") ≠ ("second", "B") :=
  ⟨by decide, by decide, by decide⟩

/-- C3 amended: the temporary path is `/tmp/` followed by the
client-supplied filename: whenever an upload request creates a temporary
file, its path equals `tempPath` of the filename, and two uploads write to
distinct paths exactly when their filenames differ — same filename means
the same path. -/
theorem temp_path_from_filename (client : Client) (channel_id : String)
    (message : Option String) (f : UploadedFile) (fs0 : FS) (p : String)
    (h : (upload_file client channel_id message (some f) fs0).created = some p) :
    p = tempPath f.filename ∧
    ∀ g : String, (tempPath f.filename = tempPath g ↔ f.filename = g) := by
  refine ⟨?_, fun g => tempPath_inj f.filename g⟩
  cases hcr : client.ready with
  | false => simp [upload_file, hcr] at h
  | true =>
    simp [upload_file, hcr] at h
    obtain ⟨f2, hf2, hp⟩ := uploadTry_filePath_eq client channel_id
      (message.getD "") (some f) fs0 p h
    cases hf2
    exact hp

/-- C3 amended, witness. -/
theorem temp_path_from_filename_witness :
    "/tmp/a.txt" = tempPath "a.txt" ∧
    ∀ g : String, (tempPath "a.txt" = tempPath g ↔ "a.txt" = g) :=
  temp_path_from_filename sampleClient "42" (some "hello")
    { filename := "a.txt", data := "A" } [] "/tmp/a.txt" (by decide)

/-- C5: a POST /upload/ request in which both the message and the file are
absent is rejected with a 400 client error before any side effect: the disk
is unchanged, no temporary file is created and nothing is sent. -/
theorem missing_both_rejected_400 (client : Client) (channel_id : String) (fs0 : FS) :
    upload_file client channel_id none none fs0 =
      { response := .httpError 400 "メッセージまたはファイルを送信してください。",
        fs := fs0, created := none, sent := none } :=
  rfl

/-- C4: whatever the exit path of a POST /upload/ request — success,
forwarding error, or error after creation — a temporary file created
during the request is absent from the disk after the request completes:
the `finally` block removes it. -/
theorem temp_file_absent_after_upload (client : Client) (channel_id : String)
    (message : Option String) (file : Option UploadedFile) (fs0 : FS) (p : String)
    (h : (upload_file client channel_id message file fs0).created = some p) :
    fsExists (upload_file client channel_id message file fs0).fs p = false := by
  by_cases h1 : (pyFalsy message && file.isNone) = true
  · simp [upload_file, h1] at h
  · cases hcr : client.ready with
    | false => simp [upload_file, h1, hcr] at h
    | true =>
      simp [upload_file, h1, hcr] at h ⊢
      rw [h]
      exact fsExists_finallyCleanup _ _

/-- C4 witness. -/
theorem temp_file_absent_after_upload_witness :
    fsExists (upload_file sampleClient "42" none
      (some { filename := "a.txt", data := "A" }) [("/tmp/keep", "x")]).fs
      "/tmp/a.txt" = false :=
  temp_file_absent_after_upload sampleClient "42" none
    (some { filename := "a.txt", data := "A" }) [("/tmp/keep", "x")] "/tmp/a.txt"
    (by decide)

/-- C6 counterexample: a POST /upload/ request carrying neither message nor
file, made while the client is not ready, is rejected with the 400
validation error, not with the 503 service-unavailable condition — the
validation check on line 127 runs before the readiness check on line 130. -/
theorem not_ready_upload_400_cex :
    (upload_file notReadyClient "1" none none []).response =
      .httpError 400 "メッセージまたはファイルを送信してください。" ∧
    (upload_file notReadyClient "1" none none []).response ≠
      .httpError 503 "Discord bot is not ready." :=
  ⟨by decide, by decide⟩

/-- C6 amended: while the client is not ready, GET /channels and GET
/messages are rejected with a 503 service-unavailable condition and no
work is queued, and POST /upload/ is rejected with the same 503 provided
the request passes the message-or-file validation (a request missing both
gets the 400 validation error first). -/
theorem not_ready_rejected_503 (client : Client) (channel_id : String)
    (message : Option String) (file : Option UploadedFile) (fs0 : FS)
    (hcr : client.ready = false)
    (hval : (pyFalsy message && file.isNone) = false) :
    get_channels client = .httpError 503 "Discord bot is not ready." ∧
    get_messages client channel_id = .httpError 503 "Discord bot is not ready." ∧
    (upload_file client channel_id message file fs0).response =
      .httpError 503 "Discord bot is not ready." := by
  refine ⟨?_, ?_, ?_⟩ <;> simp [get_channels, get_messages, upload_file, hcr, hval]

/-- C6 amended, witness. -/
theorem not_ready_rejected_503_witness :
    get_channels notReadyClient = .httpError 503 "Discord bot is not ready." ∧
    get_messages notReadyClient "42" = .httpError 503 "Discord bot is not ready." ∧
    (upload_file notReadyClient "42" (some "hi") none []).response =
      .httpError 503 "Discord bot is not ready." :=
  not_ready_rejected_503 notReadyClient "42" (some "hi") none [] rfl (by decide)

/-- C7: a successful GET /messages request — ready client, parseable id, a
resolved channel whose history fetch succeeds — returns exactly the first
50 messages of the platform-provided (most-recent-first) history, in that
order, hence at most 50 items, and each rendered item carries the author
name, the content, the timestamp and the attachment urls and filenames. -/
theorem get_messages_success_shape (client : Client) (channel_id : String)
    (cid : Int) (ch : Channel)
    (hready : client.ready = true) (hparse : pyIntParse channel_id = some cid)
    (hch : get_channel client cid = some ch) (hfetch : ch.historyExc = none) :
    get_messages client channel_id = .ok ((ch.history.take 50).map renderMessage) ∧
    ((ch.history.take 50).map renderMessage).length ≤ 50 ∧
    ∀ m : DiscordMessage, renderMessage m =
      { author := m.authorName, content := m.content, timestamp := m.createdAt,
        attachments := m.attachments.map
          (fun a => { url := a.url, filename := a.filename }) } := by
  refine ⟨?_, ?_, fun m => rfl⟩
  · simp [get_messages, getMessagesTry, hready, hparse, hch, hfetch]
  · simp only [List.length_map, List.length_take]
    omega

/-- C7 witness. -/
theorem get_messages_success_shape_witness :
    get_messages sampleClient "42" =
      .ok ((sampleChannel.history.take 50).map renderMessage) ∧
    ((sampleChannel.history.take 50).map renderMessage).length ≤ 50 ∧
    ∀ m : DiscordMessage, renderMessage m =
      { author := m.authorName, content := m.content, timestamp := m.createdAt,
        attachments := m.attachments.map
          (fun a => { url := a.url, filename := a.filename }) } :=
  get_messages_success_shape sampleClient "42" 42 sampleChannel rfl (by decide)
    (by decide) rfl

/-- C9: a channel id string rejected by int() raises inside the try block
of either handler and surfaces as a 500 whose detail carries the
ValueError message — not as a 404 — on GET /messages and POST /upload/
alike. -/
theorem unparseable_id_500 (client : Client) (channel_id : String)
    (message : Option String) (file : Option UploadedFile) (fs0 : FS)
    (hready : client.ready = true) (hparse : pyIntParse channel_id = none)
    (hval : (pyFalsy message && file.isNone) = false) :
    get_messages client channel_id =
      .httpError 500 ("メッセージの取得に失敗しました: " ++ valueErrorMsg channel_id) ∧
    (upload_file client channel_id message file fs0).response =
      .httpError 500 ("投稿に失敗しました: " ++ valueErrorMsg channel_id) := by
  constructor
  · simp [get_messages, getMessagesTry, hready, hparse, PyExc.str]
  · simp [upload_file, uploadTry, hready, hparse, hval, PyExc.str]

/-- C9 witness. -/
theorem unparseable_id_500_witness :
    get_messages readyEmptyClient "abc" =
      .httpError 500 ("メッセージの取得に失敗しました: " ++ valueErrorMsg "abc") ∧
    (upload_file readyEmptyClient "abc" (some "hi") none []).response =
      .httpError 500 ("投稿に失敗しました: " ++ valueErrorMsg "abc") :=
  unparseable_id_500 readyEmptyClient "abc" (some "hi") none [] rfl (by decide)
    (by decide)

/-- C10: a POST /upload/ request carrying a file part with an empty
filename and a falsy message passes the message-or-file validation (the
file object is truthy), writes no temporary file, leaves the disk
untouched, and sends a message with empty content to the resolved channel. -/
theorem empty_filename_sends_empty_message (client : Client) (channel_id : String)
    (cid : Int) (ch : Channel) (message : Option String) (f : UploadedFile) (fs0 : FS)
    (hready : client.ready = true) (hparse : pyIntParse channel_id = some cid)
    (hch : get_channel client cid = some ch) (hsend : ch.sendExc = none)
    (hmsg : pyFalsy message = true) (hname : f.filename = "") :
    upload_file client channel_id message (some f) fs0 =
      { response := .ok "投稿が完了しました！", fs := fs0, created := none,
        sent := some (.textOnly "") } := by
  have hcontent : message.getD "" = "" := by
    cases message with
    | none => rfl
    | some s =>
      simp [pyFalsy] at hmsg
      simp [hmsg]
  simp [upload_file, uploadTry, hready, hparse, hch, hsend, hname, hcontent,
    finallyCleanup]

/-- C10 witness. -/
theorem empty_filename_sends_empty_message_witness :
    upload_file sampleClient "42" none (some { filename := "", data := "D" })
      [("/tmp/old", "z")] =
      { response := .ok "投稿が完了しました！", fs := [("/tmp/old", "z")],
        created := none, sent := some (.textOnly "") } :=
  empty_filename_sends_empty_message sampleClient "42" 42 sampleChannel none
    { filename := "", data := "D" } [("/tmp/old", "z")] rfl (by decide) (by decide)
    rfl rfl rfl

/-- C8: when the bot token environment variable is absent, module
initialisation exits with code 1, before the Discord client or the FastAPI
app (and hence the HTTP server or the chat connection) is created. -/
theorem missing_token_exits_nonzero :
    moduleStartup none = ModuleInit.exited 1 :=
  rfl

end GbSend
